import Mathlib

/-!
Verification development for the Zarr v3 storage sink (zarr.v3.cpp and
writers/writer.hh).  The C++ translation unit builds JSON metadata
documents, lays out metadata sink paths, allocates the multiscale writer
ladder, reports capability flags, and exposes C init entry points.  We
embed those operations as executable Lean definitions and prove the
specified properties about them.
-/

/-- Pixel sample types supported by the sink (from components.h, used via
`image_shape.type`). -/
inductive SampleType where
  | u8
  | u16
  | i8
  | i16
  | f32
deriving DecidableEq, Repr

/-- Modelled from the spec: `common::sample_type_to_dtype` is not under
src/; the spec fixes the mapping to one of
"uint8"|"uint16"|"int8"|"int16"|"float32". -/
def sample_type_to_dtype : SampleType → String
  | .u8 => "uint8"
  | .u16 => "uint16"
  | .i8 => "int8"
  | .i16 => "int16"
  | .f32 => "float32"

/-- Dimension kinds (space, channel, time, other) from the data model. -/
inductive DimensionType where
  | space
  | channel
  | time
  | other
deriving DecidableEq, Repr

/-- A named acquisition axis: total extent, chunk extent, and how many
chunks along this axis form one shard. -/
structure Dimension where
  name : String
  kind : DimensionType
  array_size_px : Nat
  chunk_size_px : Nat
  shard_size_chunks : Nat
deriving DecidableEq, Repr

/-- Blosc compression parameter record: codec id, compression level,
shuffle mode (from blosc.compressor.hh, used via `params.clevel`,
`params.codec_id`, `params.shuffle`). -/
structure BloscCompressionParams where
  codec_id : String
  clevel : Nat
  shuffle : Nat
deriving DecidableEq, Repr

/-- The per-frame image geometry.  Only the `type` member is read by this
translation unit (`config.image_shape.type`), so only it is modelled. -/
structure ImageShape where
  type : SampleType
deriving DecidableEq, Repr

/-- ArrayConfig: image shape, ordered dimension list (fastest-varying
first, append dimension last), data root path, optional compression. -/
structure ArrayConfig where
  image_shape : ImageShape
  dimensions : List Dimension
  data_root : String
  compression_params : Option BloscCompressionParams
deriving DecidableEq, Repr

/-- The observable state of one ZarrV3Writer as used by
`write_array_metadata_`: its immutable `config()` and its
`frames_written()` counter (writer.hh line 67). -/
structure ZarrV3Writer where
  config : ArrayConfig
  frames_written : Nat
deriving DecidableEq, Repr

/-- A JSON value, as built by the metadata writers.  Objects are ordered
field lists with distinct keys. -/
inductive Json where
  | null : Json
  | str : String → Json
  | num : Nat → Json
  | arr : List Json → Json
  | obj : List (String × Json) → Json

/-- Look up a top-level field of a JSON object. -/
def Json.find (j : Json) (key : String) : Option Json :=
  match j with
  | .obj fields => fields.lookup key
  | _ => none

/-- Filesystem path concatenation, as `std::filesystem::path::operator/`
renders on POSIX. -/
def pathJoin (a b : String) : String := a ++ "/" ++ b

/-- The `array_shape` vector of `write_array_metadata_`: it starts with
`writer->frames_written()` and then walks `config.dimensions` from
`rbegin() + 1` to `rend()` taking `array_size_px`. -/
def array_shape (writer : ZarrV3Writer) : List Nat :=
  writer.frames_written ::
    (writer.config.dimensions.reverse.drop 1).map (fun d => d.array_size_px)

/-- The `chunk_shape` vector of `write_array_metadata_`: the full
reversed dimension list, taking `chunk_size_px`. -/
def chunk_shape (config : ArrayConfig) : List Nat :=
  config.dimensions.reverse.map (fun d => d.chunk_size_px)

/-- The `shard_shape` vector of `write_array_metadata_`: the full
reversed dimension list, taking `shard_size_chunks`. -/
def shard_shape (config : ArrayConfig) : List Nat :=
  config.dimensions.reverse.map (fun d => d.shard_size_chunks)

/-- The conditional `compressor` member of the array metadata: present
exactly when `config.compression_params.has_value()`. -/
def compressor_fields (config : ArrayConfig) : List (String × Json) :=
  match config.compression_params with
  | some params =>
    [("compressor", Json.obj [
      ("codec", Json.str "https://purl.org/zarr/spec/codec/blosc/1.0"),
      ("configuration", Json.obj [
        ("blocksize", Json.num 0),
        ("clevel", Json.num params.clevel),
        ("cname", Json.str params.codec_id),
        ("shuffle", Json.num params.shuffle)])])]
  | none => []

/-- The full array metadata document built by `write_array_metadata_`
for one writer. -/
def array_metadata_fields (writer : ZarrV3Writer) : List (String × Json) :=
  [("attributes", Json.obj []),
   ("chunk_grid", Json.obj [
     ("chunk_shape", Json.arr ((chunk_shape writer.config).map Json.num)),
     ("separator", Json.str "/"),
     ("type", Json.str "regular")]),
   ("chunk_memory_layout", Json.str "C"),
   ("data_type",
    Json.str (sample_type_to_dtype writer.config.image_shape.type)),
   ("extensions", Json.arr []),
   ("fill_value", Json.num 0),
   ("shape", Json.arr ((array_shape writer).map Json.num))]
  ++ compressor_fields writer.config
  ++ [("storage_transformers", Json.arr [Json.obj [
       ("type", Json.str "indexed"),
       ("extension",
        Json.str
          "https://purl.org/zarr/spec/storage_transformers/sharding/1.0"),
       ("configuration", Json.obj [
         ("chunks_per_shard",
          Json.arr ((shard_shape writer.config).map Json.num))])]])]

/-- Embedding of `zarr::ZarrV3::write_array_metadata_(size_t level)`.
Returns the sink index written to (`metadata_sinks_.at(2 + level)`) and
the JSON document; `none` models the `CHECK(level < writers_.size())`
failure. -/
def write_array_metadata_ (writers : List ZarrV3Writer) (level : Nat) :
    Option (Nat × Json) :=
  match writers[level]? with
  | none => none
  | some writer => some (2 + level, Json.obj (array_metadata_fields writer))

/-- Embedding of `zarr::ZarrV3::write_base_metadata_()`: the protocol
root document, written to sink index 0 (`metadata_sinks_.at(0)`). -/
def write_base_metadata_ : Nat × Json :=
  (0, Json.obj [
    ("extensions", Json.arr []),
    ("metadata_encoding",
     Json.str "https://purl.org/zarr/spec/protocol/core/3.0"),
    ("metadata_key_suffix", Json.str ".json"),
    ("zarr_format", Json.str "https://purl.org/zarr/spec/protocol/core/3.0")])

/-- Embedding of `zarr::ZarrV3::write_group_metadata_()`.  The first
argument is `external_metadata_json_`; the second stands for the value
`nlohmann::json::parse(external_metadata_json_, ...)` would produce (the
parser is an external library, so its output is a parameter).  The
source sets `metadata["attributes"]["acquire"]` to the empty string when
`external_metadata_json_.empty()` and to the parsed value otherwise, and
writes the document to sink index 1 (`metadata_sinks_.at(1)`). -/
def write_group_metadata_ (external_metadata_json : String)
    (parsed : Json) : Nat × Json :=
  (1, Json.obj [
    ("attributes", Json.obj [
      ("acquire",
       if external_metadata_json = "" then Json.str "" else parsed)])])

/-- The orchestrator state of a `zarr::ZarrV3` instance, restricted to
the members this translation unit reads. -/
structure ZarrV3State where
  image_shape_ : ImageShape
  acquisition_dimensions_ : List Dimension
  dataset_root_ : String
  blosc_compression_params_ : Option BloscCompressionParams
  enable_multiscale_ : Bool
  external_metadata_json_ : String
  writers_ : List ZarrV3Writer

/-- Embedding of `zarr::ZarrV3::make_metadata_sink_paths_()`: pushes
`<root>/zarr.json`, then `<root>/meta/root.group.json`, then one
`<root>/meta/root/<i>.array.json` per writer. -/
def make_metadata_sink_paths_ (st : ZarrV3State) : List String :=
  [pathJoin st.dataset_root_ "zarr.json",
   pathJoin (pathJoin st.dataset_root_ "meta") "root.group.json"]
  ++ (List.range st.writers_.length).map (fun i =>
       pathJoin (pathJoin (pathJoin st.dataset_root_ "meta") "root")
         (toString i ++ ".array.json"))

/-- Capability flags populated by `get_meta`.  The remaining members of
`StoragePropertyMetadata` are owned by the base class and are not read
or written by this translation unit beyond the base call. -/
structure StoragePropertyMetadata where
  sharding_is_supported : Nat
  multiscale_is_supported : Nat
deriving DecidableEq, Repr

/-- Embedding of `zarr::ZarrV3::get_meta(StoragePropertyMetadata*)`.
The base-class call `Zarr::get_meta(meta)` lives outside src/, so it is
a parameter; the override then force-sets `sharding_is_supported = 1`
and `multiscale_is_supported = 0`. -/
def get_meta
    (base : ZarrV3State → StoragePropertyMetadata → StoragePropertyMetadata)
    (st : ZarrV3State) (meta : StoragePropertyMetadata) :
    StoragePropertyMetadata :=
  let m := base st meta
  { m with sharding_is_supported := 1, multiscale_is_supported := 0 }

/-- Modelled from the spec: the per-dimension effect of `downsample`
(declared outside src/): a spatial extent is halved (floor division,
minimum 1) and the chunk size is capped at the new extent; non-spatial
dimensions are unchanged. -/
def downsampleDim (d : Dimension) : Dimension :=
  if d.kind = DimensionType.space then
    { d with array_size_px := max 1 (d.array_size_px / 2),
             chunk_size_px := min d.chunk_size_px (max 1 (d.array_size_px / 2)) }
  else d

/-- Modelled from the spec: `downsample(config, downsampled_config)` is
declared outside src/.  The spec says it produces a new ArrayConfig with
each spatial extent halved (floor division, minimum 1), chunk sizes
unchanged but capped at the new extent, and returns
`was_downsampled = false` when the source is already 1x1 in all spatial
dims.  The remaining config fields are left unchanged. -/
def downsample (config : ArrayConfig) : ArrayConfig × Bool :=
  let was_downsampled := config.dimensions.any (fun d =>
    decide (d.kind = DimensionType.space ∧ 2 ≤ d.array_size_px))
  ({ config with dimensions := config.dimensions.map downsampleDim },
   was_downsampled)

/-- Per-dimension termination measure for the downsample loop. -/
def dimMeasure (d : Dimension) : Nat :=
  if d.kind = DimensionType.space then max d.array_size_px 1 else 0

/-- Termination measure for the downsample loop: the sum over spatial
dimensions of `max array_size_px 1`. -/
def spaceMeasure (config : ArrayConfig) : Nat :=
  (config.dimensions.map dimMeasure).sum

theorem dimMeasure_downsampleDim_le (d : Dimension) :
    dimMeasure (downsampleDim d) ≤ dimMeasure d := by
  by_cases h : d.kind = DimensionType.space
  · simp only [dimMeasure, downsampleDim, h, if_true, if_pos]
    omega
  · simp [dimMeasure, downsampleDim, h]

theorem dimMeasure_downsampleDim_lt (d : Dimension)
    (hspace : d.kind = DimensionType.space)
    (hext : 2 ≤ d.array_size_px) :
    dimMeasure (downsampleDim d) < dimMeasure d := by
  simp [dimMeasure, downsampleDim, hspace]
  omega

theorem sum_dimMeasure_map_lt (l : List Dimension) (d0 : Dimension)
    (hd0 : d0 ∈ l) (hspace : d0.kind = DimensionType.space)
    (hext : 2 ≤ d0.array_size_px) :
    ((l.map downsampleDim).map dimMeasure).sum < (l.map dimMeasure).sum := by
  induction l with
  | nil => simp at hd0
  | cons a l ih =>
    simp only [List.map_cons, List.sum_cons]
    rcases List.mem_cons.mp hd0 with rfl | hmem
    · have hlt := dimMeasure_downsampleDim_lt _ hspace hext
      have hle : ((l.map downsampleDim).map dimMeasure).sum
          ≤ (l.map dimMeasure).sum := by
        rw [List.map_map]
        exact List.sum_le_sum (fun d _ => dimMeasure_downsampleDim_le d)
      omega
    · have h1 := ih hmem
      have h2 := dimMeasure_downsampleDim_le a
      omega

theorem downsample_measure_lt (config : ArrayConfig)
    (h : (downsample config).2 = true) :
    spaceMeasure (downsample config).1 < spaceMeasure config := by
  simp only [downsample, List.any_eq_true, decide_eq_true_eq] at h
  obtain ⟨d0, hd0, hspace, hext⟩ := h
  simpa [downsample, spaceMeasure] using
    sum_dimMeasure_map_lt config.dimensions d0 hd0 hspace hext

/-- The multiscale loop body of `zarr::ZarrV3::allocate_writers_`: while
`do_downsample` holds, call `downsample`, push a writer for the
downsampled config, and continue from it.  Note the source pushes the
writer BEFORE re-testing the flag, so the config produced by the final
call (the one returning `was_downsampled = false`) also gets a writer. -/
def multiscale_ladder (config : ArrayConfig) : List ArrayConfig :=
  let p := downsample config
  if h : p.2 = true then p.1 :: multiscale_ladder p.1 else [p.1]
termination_by spaceMeasure config
decreasing_by
  exact downsample_measure_lt config h

/-- The level-0 config built at the top of `allocate_writers_`:
image shape, acquisition dimensions, data root
`<root>/data/root/0`, and the orchestrator compression params. -/
def level0_config (st : ZarrV3State) : ArrayConfig :=
  { image_shape := st.image_shape_,
    dimensions := st.acquisition_dimensions_,
    data_root :=
      pathJoin (pathJoin (pathJoin st.dataset_root_ "data") "root") "0",
    compression_params := st.blosc_compression_params_ }

/-- Embedding of `zarr::ZarrV3::allocate_writers_()`: the list of
configs of the writers pushed onto `writers_` (one `ZarrV3Writer` is
constructed per entry).  The level-0 writer is always pushed; when
`enable_multiscale_` is set the downsample loop pushes the rest. -/
def allocate_writers_ (st : ZarrV3State) : List ArrayConfig :=
  let config := level0_config st
  if st.enable_multiscale_ then config :: multiscale_ladder config
  else [config]

/-- Blosc codec identifiers used by the compressed init entry points. -/
inductive BloscCodecId where
  | Zstd
  | Lz4
deriving DecidableEq, Repr

/-- Modelled from the spec: `compression_codec_as_string` is declared
outside src/; the spec fixes the codec ids to "zstd" and "lz4". -/
def compression_codec_as_string : BloscCodecId → String
  | .Zstd => "zstd"
  | .Lz4 => "lz4"

/-- Embedding of `zarr_v3_init()`.  The constructor `new zarr::ZarrV3(...)`
(whose body lives outside src/) may throw, so it is a parameter mapping
the optional compression params to either a constructed instance or an
exception; `none` passed to it stands for the default constructor.  The
entry point catches every exception and returns a null pointer (`none`);
it never lets an exception cross the C boundary. -/
def zarr_v3_init
    (construct : Option BloscCompressionParams →
      Except String ZarrV3State) : Option ZarrV3State :=
  match construct none with
  | .ok s => some s
  | .error _ => none

/-- Embedding of the anonymous-namespace template
`compressed_zarr_v3_init<CodecId>()`: builds
`BloscCompressionParams(compression_codec_as_string<CodecId>(), 1, 1)`
and constructs a ZarrV3 with it, catching every exception and returning
a null pointer (`none`) on failure. -/
def compressed_zarr_v3_init (codecId : BloscCodecId)
    (construct : Option BloscCompressionParams →
      Except String ZarrV3State) : Option ZarrV3State :=
  match construct (some
      { codec_id := compression_codec_as_string codecId,
        clevel := 1, shuffle := 1 }) with
  | .ok s => some s
  | .error _ => none

/-- Embedding of `compressed_zarr_v3_zstd_init()`. -/
def compressed_zarr_v3_zstd_init
    (construct : Option BloscCompressionParams →
      Except String ZarrV3State) : Option ZarrV3State :=
  compressed_zarr_v3_init BloscCodecId.Zstd construct

/-- Embedding of `compressed_zarr_v3_lz4_init()`. -/
def compressed_zarr_v3_lz4_init
    (construct : Option BloscCompressionParams →
      Except String ZarrV3State) : Option ZarrV3State :=
  compressed_zarr_v3_init BloscCodecId.Lz4 construct

theorem reverse_drop_one {α : Type} (l : List α) :
    l.reverse.drop 1 = l.dropLast.reverse := by
  induction l using List.reverseRecOn with
  | nil => rfl
  | append_singleton xs x ih => simp

/-- C1: for every level, the array metadata serializes `shape` so that
entry 0 is that level writer `frames_written()` and the remaining
entries are the configured `array_size_px` of each dimension in reverse
config order, with the last-declared (append) dimension omitted. -/
theorem array_metadata_shape (writers : List ZarrV3Writer) (level : Nat)
    (w : ZarrV3Writer) (h : writers[level]? = some w) :
    ∃ md, write_array_metadata_ writers level = some (2 + level, md) ∧
      md.find "shape" = some (Json.arr
        ((w.frames_written ::
          ((w.config.dimensions.dropLast.map
            (fun d => d.array_size_px)).reverse)).map Json.num)) := by
  have hrev : ((w.config.dimensions.dropLast.map
      (fun d => d.array_size_px)).reverse)
      = (w.config.dimensions.reverse.drop 1).map
          (fun d => d.array_size_px) := by
    rw [reverse_drop_one, List.map_reverse]
  rw [hrev]
  unfold write_array_metadata_
  rw [h]
  exact ⟨_, rfl, rfl⟩


theorem map_reverse_comm {α β : Type} (f : α → β) (l : List α) :
    (l.map f).reverse = l.reverse.map f := by
  simp

/-- C2: for every level, the array metadata `chunk_grid` object holds
`chunk_shape` equal to the configured `chunk_size_px` of every dimension
in reverse config order, with separator "/" and type "regular". -/
theorem array_metadata_chunk_grid (writers : List ZarrV3Writer)
    (level : Nat) (w : ZarrV3Writer) (h : writers[level]? = some w) :
    ∃ md, write_array_metadata_ writers level = some (2 + level, md) ∧
      md.find "chunk_grid" = some (Json.obj [
        ("chunk_shape", Json.arr
          (((w.config.dimensions.map
            (fun d => d.chunk_size_px)).reverse).map Json.num)),
        ("separator", Json.str "/"),
        ("type", Json.str "regular")]) := by
  rw [map_reverse_comm]
  unfold write_array_metadata_
  rw [h]
  exact ⟨_, rfl, rfl⟩

/-- C3: for every level, the array metadata `storage_transformers` array
has a single entry of type "indexed" with the sharding extension URL and
a configuration whose `chunks_per_shard` lists the configured
`shard_size_chunks` of every dimension in reverse config order. -/
theorem array_metadata_storage_transformers (writers : List ZarrV3Writer)
    (level : Nat) (w : ZarrV3Writer) (h : writers[level]? = some w) :
    ∃ md, write_array_metadata_ writers level = some (2 + level, md) ∧
      md.find "storage_transformers" = some (Json.arr [Json.obj [
        ("type", Json.str "indexed"),
        ("extension",
         Json.str
           "https://purl.org/zarr/spec/storage_transformers/sharding/1.0"),
        ("configuration", Json.obj [
          ("chunks_per_shard", Json.arr
            (((w.config.dimensions.map
              (fun d => d.shard_size_chunks)).reverse).map Json.num))])]]) := by
  rw [map_reverse_comm]
  unfold write_array_metadata_
  rw [h]
  refine ⟨_, rfl, ?_⟩
  cases hcp : w.config.compression_params with
  | none =>
    simp only [Json.find, array_metadata_fields, compressor_fields, hcp]
    rfl
  | some params =>
    simp only [Json.find, array_metadata_fields, compressor_fields, hcp]
    rfl

/-- C6: for every level, the array metadata has a `compressor` field iff
the config has compression params; when present it holds the blosc codec
URL and a configuration with blocksize 0 and clevel, cname, shuffle
taken from the configured params (cname is the configured codec id). -/
theorem array_metadata_compressor (writers : List ZarrV3Writer)
    (level : Nat) (w : ZarrV3Writer) (h : writers[level]? = some w) :
    ∃ md, write_array_metadata_ writers level = some (2 + level, md) ∧
      ((md.find "compressor").isSome
        ↔ w.config.compression_params.isSome) ∧
      (∀ params, w.config.compression_params = some params →
        md.find "compressor" = some (Json.obj [
          ("codec", Json.str "https://purl.org/zarr/spec/codec/blosc/1.0"),
          ("configuration", Json.obj [
            ("blocksize", Json.num 0),
            ("clevel", Json.num params.clevel),
            ("cname", Json.str params.codec_id),
            ("shuffle", Json.num params.shuffle)])])) := by
  unfold write_array_metadata_
  rw [h]
  refine ⟨_, rfl, ?_, ?_⟩
  · cases hcp : w.config.compression_params with
    | none =>
      simp only [Json.find, array_metadata_fields, compressor_fields, hcp]
      simp
    | some params =>
      simp only [Json.find, array_metadata_fields, compressor_fields, hcp]
      simp
  · intro params hcp
    simp only [Json.find, array_metadata_fields, compressor_fields, hcp]
    rfl

/-- A concrete x axis: 64 px extent, 32 px chunks, 2 chunks per shard. -/
def dim_x : Dimension :=
  { name := "x", kind := DimensionType.space, array_size_px := 64,
    chunk_size_px := 32, shard_size_chunks := 2 }

/-- A concrete y axis: 48 px extent, 24 px chunks, 2 chunks per shard. -/
def dim_y : Dimension :=
  { name := "y", kind := DimensionType.space, array_size_px := 48,
    chunk_size_px := 24, shard_size_chunks := 2 }

/-- A concrete append (time) axis: unbounded extent, 2 frames per chunk. -/
def dim_t : Dimension :=
  { name := "t", kind := DimensionType.time, array_size_px := 0,
    chunk_size_px := 2, shard_size_chunks := 1 }

/-- A concrete zstd-compressed array config over x, y, t. -/
def sample_config : ArrayConfig :=
  { image_shape := { type := SampleType.u16 },
    dimensions := [dim_x, dim_y, dim_t],
    data_root := "acq/data/root/0",
    compression_params :=
      some { codec_id := "zstd", clevel := 1, shuffle := 1 } }

/-- A concrete writer that has accepted 4 frames. -/
def sample_writer : ZarrV3Writer :=
  { config := sample_config, frames_written := 4 }

/-- A concrete orchestrator state owning one writer. -/
def sample_state : ZarrV3State :=
  { image_shape_ := { type := SampleType.u16 },
    acquisition_dimensions_ := [dim_x, dim_y, dim_t],
    dataset_root_ := "acq",
    blosc_compression_params_ :=
      some { codec_id := "zstd", clevel := 1, shuffle := 1 },
    enable_multiscale_ := false,
    external_metadata_json_ := "",
    writers_ := [sample_writer] }

theorem array_metadata_shape_witness :
    ∃ md, write_array_metadata_ [sample_writer] 0 = some (2 + 0, md) ∧
      md.find "shape" = some (Json.arr
        ((sample_writer.frames_written ::
          ((sample_writer.config.dimensions.dropLast.map
            (fun d => d.array_size_px)).reverse)).map Json.num)) :=
  array_metadata_shape [sample_writer] 0 sample_writer rfl

theorem array_metadata_chunk_grid_witness :
    ∃ md, write_array_metadata_ [sample_writer] 0 = some (2 + 0, md) ∧
      md.find "chunk_grid" = some (Json.obj [
        ("chunk_shape", Json.arr
          (((sample_writer.config.dimensions.map
            (fun d => d.chunk_size_px)).reverse).map Json.num)),
        ("separator", Json.str "/"),
        ("type", Json.str "regular")]) :=
  array_metadata_chunk_grid [sample_writer] 0 sample_writer rfl

theorem array_metadata_storage_transformers_witness :
    ∃ md, write_array_metadata_ [sample_writer] 0 = some (2 + 0, md) ∧
      md.find "storage_transformers" = some (Json.arr [Json.obj [
        ("type", Json.str "indexed"),
        ("extension",
         Json.str
           "https://purl.org/zarr/spec/storage_transformers/sharding/1.0"),
        ("configuration", Json.obj [
          ("chunks_per_shard", Json.arr
            (((sample_writer.config.dimensions.map
              (fun d => d.shard_size_chunks)).reverse).map Json.num))])]]) :=
  array_metadata_storage_transformers [sample_writer] 0 sample_writer rfl

theorem array_metadata_compressor_witness :
    ∃ md, write_array_metadata_ [sample_writer] 0 = some (2 + 0, md) ∧
      ((md.find "compressor").isSome
        ↔ sample_writer.config.compression_params.isSome) ∧
      (∀ params, sample_writer.config.compression_params = some params →
        md.find "compressor" = some (Json.obj [
          ("codec", Json.str "https://purl.org/zarr/spec/codec/blosc/1.0"),
          ("configuration", Json.obj [
            ("blocksize", Json.num 0),
            ("clevel", Json.num params.clevel),
            ("cname", Json.str params.codec_id),
            ("shuffle", Json.num params.shuffle)])])) :=
  array_metadata_compressor [sample_writer] 0 sample_writer rfl

/-- C5: for every ZarrV3 instance (whatever the base-class call does and
whatever `enable_multiscale_` holds), `get_meta` populates
`sharding_is_supported = 1` and `multiscale_is_supported = 0`. -/
theorem get_meta_capability_flags
    (base : ZarrV3State → StoragePropertyMetadata → StoragePropertyMetadata)
    (st : ZarrV3State) (meta : StoragePropertyMetadata) :
    (get_meta base st meta).sharding_is_supported = 1 ∧
    (get_meta base st meta).multiscale_is_supported = 0 :=
  ⟨rfl, rfl⟩

/-- C7: for a non-empty external metadata string, `write_group_metadata_`
writes to sink index 1 a document whose attributes object nests the
parsed external metadata under the fixed key "acquire". -/
theorem group_metadata_acquire (ext : String) (parsed : Json)
    (h : ¬ ext = "") :
    write_group_metadata_ ext parsed = (1, Json.obj [
      ("attributes", Json.obj [("acquire", parsed)])]) := by
  simp [write_group_metadata_, h]

theorem group_metadata_acquire_witness :
    write_group_metadata_ "42" (Json.num 42) = (1, Json.obj [
      ("attributes", Json.obj [("acquire", Json.num 42)])]) :=
  group_metadata_acquire "42" (Json.num 42) (by decide)

/-- C9: for an empty external metadata string, `write_group_metadata_`
sets the "acquire" attribute to the empty JSON string (whatever the
parser would have produced is not consulted). -/
theorem group_metadata_empty_external (parsed : Json) :
    write_group_metadata_ "" parsed = (1, Json.obj [
      ("attributes", Json.obj [("acquire", Json.str "")])]) := by
  simp [write_group_metadata_]

/-- C8: `make_metadata_sink_paths_` returns 2 + K paths for K writers in
the order zarr.json, meta/root.group.json, then meta/root/<i>.array.json
for i = 0..K-1; and the base, group, and array metadata writers write to
sink indices 0, 1, and 2 + level respectively. -/
theorem metadata_sink_layout (st : ZarrV3State) :
    (make_metadata_sink_paths_ st).length = 2 + st.writers_.length ∧
    (make_metadata_sink_paths_ st)[0]? =
      some (pathJoin st.dataset_root_ "zarr.json") ∧
    (make_metadata_sink_paths_ st)[1]? =
      some (pathJoin (pathJoin st.dataset_root_ "meta") "root.group.json") ∧
    (∀ i, i < st.writers_.length →
      (make_metadata_sink_paths_ st)[2 + i]? =
        some (pathJoin (pathJoin (pathJoin st.dataset_root_ "meta") "root")
          (toString i ++ ".array.json"))) ∧
    write_base_metadata_.1 = 0 ∧
    (∀ ext parsed, (write_group_metadata_ ext parsed).1 = 1) ∧
    (∀ level r, write_array_metadata_ st.writers_ level = some r →
      r.1 = 2 + level) := by
  refine ⟨by simp [make_metadata_sink_paths_]; omega,
    by simp [make_metadata_sink_paths_],
    by simp [make_metadata_sink_paths_], ?_, rfl,
    fun ext parsed => rfl, ?_⟩
  · intro i hi
    have hetb : make_metadata_sink_paths_ st =
        pathJoin st.dataset_root_ "zarr.json" ::
        pathJoin (pathJoin st.dataset_root_ "meta") "root.group.json" ::
        (List.range st.writers_.length).map (fun j =>
          pathJoin (pathJoin (pathJoin st.dataset_root_ "meta") "root")
            (toString j ++ ".array.json")) := rfl
    rw [hetb, show 2 + i = i + 1 + 1 from by omega]
    rw [List.getElem?_cons_succ, List.getElem?_cons_succ]
    simp [List.getElem?_map, List.getElem?_range, hi]
  · intro level r hr
    unfold write_array_metadata_ at hr
    cases hw : st.writers_[level]? with
    | none => rw [hw] at hr; cases hr
    | some w => rw [hw] at hr; cases hr; rfl

theorem metadata_sink_layout_witness :
    (make_metadata_sink_paths_ sample_state)[2 + 0]? =
      some (pathJoin (pathJoin (pathJoin sample_state.dataset_root_ "meta")
        "root") (toString 0 ++ ".array.json")) :=
  (metadata_sink_layout sample_state).2.2.2.1 0 (by decide)

/-- C10: none of the three C init entry points lets a constructor
exception cross the C boundary: a failed construction yields a null
pointer, a successful one yields the constructed instance, and the
compressed variants pass the respective codec id with clevel 1 and
shuffle 1. -/
theorem init_entry_points_no_throw
    (construct : Option BloscCompressionParams →
      Except String ZarrV3State) :
    (∀ e, construct none = Except.error e →
      zarr_v3_init construct = none) ∧
    (∀ s, construct none = Except.ok s →
      zarr_v3_init construct = some s) ∧
    (∀ e, construct (some { codec_id := "zstd", clevel := 1, shuffle := 1 })
        = Except.error e → compressed_zarr_v3_zstd_init construct = none) ∧
    (∀ s, construct (some { codec_id := "zstd", clevel := 1, shuffle := 1 })
        = Except.ok s → compressed_zarr_v3_zstd_init construct = some s) ∧
    (∀ e, construct (some { codec_id := "lz4", clevel := 1, shuffle := 1 })
        = Except.error e → compressed_zarr_v3_lz4_init construct = none) ∧
    (∀ s, construct (some { codec_id := "lz4", clevel := 1, shuffle := 1 })
        = Except.ok s → compressed_zarr_v3_lz4_init construct = some s) := by
  refine ⟨?_, ?_, ?_, ?_, ?_, ?_⟩ <;>
    intro x hx <;>
    simp [zarr_v3_init, compressed_zarr_v3_zstd_init,
      compressed_zarr_v3_lz4_init, compressed_zarr_v3_init,
      compression_codec_as_string, hx]

theorem init_entry_points_no_throw_witness :
    zarr_v3_init (fun _ => Except.ok sample_state) = some sample_state :=
  (init_entry_points_no_throw
    (fun _ => Except.ok sample_state)).2.1 sample_state rfl

/-- The number of `downsample` calls the `allocate_writers_` loop makes,
counting the final call that returns `was_downsampled = false`. -/
def downsample_calls (config : ArrayConfig) : Nat :=
  let p := downsample config
  if h : p.2 = true then 1 + downsample_calls p.1 else 1
termination_by spaceMeasure config
decreasing_by
  exact downsample_measure_lt config h

theorem multiscale_ladder_length (config : ArrayConfig) :
    (multiscale_ladder config).length = downsample_calls config := by
  have H : ∀ n config, spaceMeasure config ≤ n →
      (multiscale_ladder config).length = downsample_calls config := by
    intro n
    induction n with
    | zero =>
      intro config hle
      rw [multiscale_ladder, downsample_calls]
      by_cases h : (downsample config).2 = true
      · exact absurd (downsample_measure_lt config h) (by omega)
      · simp [h]
    | succ n ih =>
      intro config hle
      rw [multiscale_ladder, downsample_calls]
      by_cases h : (downsample config).2 = true
      · have hlt := downsample_measure_lt config h
        simp only [h, dif_pos, List.length_cons]
        rw [ih (downsample config).1 (by omega)]
        omega
      · simp [h]
  exact H (spaceMeasure config) config (le_refl _)

/-- A 1 px spatial axis: the source is already 1x1 spatially. -/
def dim_x1 : Dimension :=
  { name := "x", kind := DimensionType.space, array_size_px := 1,
    chunk_size_px := 1, shard_size_chunks := 1 }

/-- A multiscale-enabled orchestrator whose level-0 config is already
1x1 in all spatial dims. -/
def tiny_state : ZarrV3State :=
  { image_shape_ := { type := SampleType.u8 },
    acquisition_dimensions_ := [dim_x1, dim_t],
    dataset_root_ := "acq",
    blosc_compression_params_ := none,
    enable_multiscale_ := true,
    external_metadata_json_ := "",
    writers_ := [] }

/-- C4 counterexample: with multiscale enabled and a level-0 config that
is already 1x1 in all spatial dims, `downsample` returns
`was_downsampled = false` on the very first call, yet `allocate_writers_`
still pushes a second writer for the output of that call: 2 writers are
constructed where the claim allows only the level-0 one. -/
theorem allocate_writers_extra_level :
    (downsample (level0_config tiny_state)).2 = false ∧
    (allocate_writers_ tiny_state).length = 2 ∧
    (allocate_writers_ tiny_state).length ≠ 1 := by
  have hfalse : (downsample (level0_config tiny_state)).2 = false := by
    decide
  have hlad : multiscale_ladder (level0_config tiny_state) =
      [(downsample (level0_config tiny_state)).1] := by
    rw [multiscale_ladder]
    simp [hfalse]
  have halloc : allocate_writers_ tiny_state =
      level0_config tiny_state ::
        multiscale_ladder (level0_config tiny_state) := rfl
  rw [halloc, hlad]
  exact ⟨hfalse, rfl, by simp⟩

/-- C4 (amended): when multiscale is enabled, `allocate_writers_`
constructs the writer ladder once: one writer for level 0 plus exactly
one writer per `downsample` call, where the loop pushes the writer
before re-testing the flag, so the ladder ends after (not before) the
call that returns `was_downsampled = false` and the config produced by
that final call still gets a writer.  In particular, when the level-0
config is already 1x1 in all spatial dims, two writers are constructed,
not one. -/
theorem allocate_writers_ladder (st : ZarrV3State)
    (h : st.enable_multiscale_ = true) :
    (allocate_writers_ st).length =
      1 + downsample_calls (level0_config st) ∧
    2 ≤ (allocate_writers_ st).length ∧
    ((downsample (level0_config st)).2 = false →
      allocate_writers_ st =
        [level0_config st, (downsample (level0_config st)).1]) := by
  have halloc : allocate_writers_ st =
      level0_config st :: multiscale_ladder (level0_config st) := by
    unfold allocate_writers_
    rw [h]
    simp
  refine ⟨?_, ?_, ?_⟩
  · rw [halloc]
    simp [multiscale_ladder_length]
    omega
  · rw [halloc]
    have : multiscale_ladder (level0_config st) ≠ [] := by
      rw [multiscale_ladder]
      by_cases hw : (downsample (level0_config st)).2 = true <;> simp [hw]
    cases hl : multiscale_ladder (level0_config st) with
    | nil => exact absurd hl this
    | cons a l => simp
  · intro hfalse
    rw [halloc, multiscale_ladder]
    simp [hfalse]

theorem allocate_writers_ladder_witness :
    (allocate_writers_ tiny_state).length =
      1 + downsample_calls (level0_config tiny_state) :=
  (allocate_writers_ladder tiny_state rfl).1
